import Mathlib

/-!
Verification of the desired-state reconciliation engine of the
`ansible-netbird` collection.

The development shallowly embeds the reconciliation code of
`plugins/modules/netbird_network.py` (router and resource sync),
`plugins/modules/netbird_account.py` (settings patch),
`plugins/modules/netbird_policy.py`, `plugins/modules/netbird_dns.py`,
`plugins/modules/netbird_posture_check.py` (needs-update predicates and
present/absent flows) and `plugins/module_utils/netbird_api.py`
(error translation).

Python dictionaries are modelled as association lists with Python's
update semantics (`pyd_insert` / `pyDict`); Python's distinction between
a key that is absent and a key bound to `None` is modelled by the
`PyField` type; `dict.get(k)` returns an `Option` (`none` playing the
role of Python `None`).  Mutating collaborator calls are reified into
call lists so that theorems can speak about which calls a run issues.
-/

namespace NetBird

/-! ## Python dict model -/

section PyDictModel

variable {K V : Type} [DecidableEq K]

/-- Lookup in an association list, first binding wins (Python dicts hold
each key once, so for lists built by `pyDict` this is dict lookup). -/
def dlookup (m : List (K × V)) (k : K) : Option V :=
  (m.find? (fun p => decide (p.1 = k))).map Prod.snd

/-- `m[k] = v` on a Python dict: overwrite the existing binding in place,
or append a fresh binding at the end (Python dicts preserve insertion
order and keep the original position on overwrite). -/
def pyd_insert : List (K × V) → K → V → List (K × V)
  | [], k, v => [(k, v)]
  | p :: m, k, v => if p.1 = k then (k, v) :: m else p :: pyd_insert m k v

/-- Build a Python dict from a sequence of key/value pairs, later pairs
overwriting earlier ones — the semantics of a dict comprehension. -/
def pyDict (l : List (K × V)) : List (K × V) :=
  l.foldl (fun m p => pyd_insert m p.1 p.2) []

/-- `\x7b**c, **d\x7d`: start from dict `c` and insert every pair of `d`. -/
def pyMerge (c d : List (K × V)) : List (K × V) :=
  d.foldl (fun m p => pyd_insert m p.1 p.2) c

/-- The value of the last pair of `l` whose key is `k`, if any. -/
def revLookup (l : List (K × V)) (k : K) : Option V :=
  (l.reverse.find? (fun p => decide (p.1 = k))).map Prod.snd


end PyDictModel


/-! ## Python string ordering (code-point lexicographic, as `sorted` uses) -/

/-- Code-point lexicographic comparison of character lists, the order
Python's `sorted` applies to strings. -/
def charListLe : List Char → List Char → Bool
  | [], _ => true
  | _ :: _, [] => false
  | a :: as, b :: bs =>
    if a.toNat < b.toNat then true
    else if b.toNat < a.toNat then false
    else charListLe as bs

/-- String comparison by code points. -/
def strLeB (a b : String) : Bool := charListLe a.data b.data

/-- The `≤` relation `sorted` uses on strings. -/
def strLe (a b : String) : Prop := strLeB a b = true

instance : DecidableRel strLe := fun _ _ => instDecidableEqBool _ _

/-- `sorted(...)` on a list of strings. -/
def sortStr (l : List String) : List String := List.insertionSort strLe l


/-! ## Python field values

A field of a record coming from JSON (or an Ansible-validated parameter
dict) can be absent, bound to `None`, or bound to a value.  `pyGet f`
is `record.get(field)`, `pyGetD f d` is `record.get(field, d)` — note
that the default only applies when the key is absent, a key bound to
`None` still yields `None`. -/

inductive PyField (α : Type) where
  | absent : PyField α
  | pynull : PyField α
  | val : α → PyField α
deriving DecidableEq

/-- `record.get(field)`: Python `None` is modelled as `none`. -/
def pyGet {α : Type} : PyField α → Option α
  | .absent => none
  | .pynull => none
  | .val a => some a

/-- `record.get(field, d)`: the default fires only when the key is absent. -/
def pyGetD {α : Type} : PyField α → α → Option α
  | .absent, d => some d
  | .pynull, _ => none
  | .val a, _ => some a

/-- `record.get(field, []) or []`: both an absent key and `None` (and the
empty list) normalize to the empty list. -/
def pyListOr {α : Type} : PyField (List α) → List α
  | .absent => []
  | .pynull => []
  | .val l => l

/-- An Ansible-validated parameter value (the key is always present in
the dict, possibly bound to `None`) seen as a Python dict field. -/
def optField {α : Type} : Option α → PyField α
  | none => .pynull
  | some a => .val a

/-- Python `x if x else None` for an optional string (both `None` and the
empty string are falsy). -/
def truthyStr : Option String → Option String
  | none => none
  | some s => if s = "" then none else some s

/-- Python `set(a) == set(b)` on lists of strings. -/
def setEq (a b : List String) : Bool :=
  a.all (fun x => b.contains x) && b.all (fun x => a.contains x)

/-! ## Router and resource records (netbird_network.py) -/

/-- The identifying fields of a router dict, as `get_router_key` reads
them: `router.get('peer', '')` and `router.get('peer_groups', []) or []`. -/
structure RouterDict where
  peer : PyField String
  peer_groups : PyField (List String)
deriving DecidableEq

/-- The natural key of a router: first component is the Python value of
`router.get('peer', '')` (so `None` for a parameter dict whose `peer`
suboption was left unset, `''` for a remote record without a `peer`
key), second component is `tuple(sorted(router.get('peer_groups', []) or []))`. -/
abbrev RKey : Type := Option String × List String

/-- `get_router_key(router)` from netbird_network.py. -/
def get_router_key (router : RouterDict) : RKey :=
  (pyGetD router.peer "", sortStr (pyListOr router.peer_groups))

/-- A router record held by the remote system (JSON object). -/
structure CRouter where
  id : String
  peer : PyField String
  peer_groups : PyField (List String)
  metric : PyField Int
  masquerade : PyField Bool
deriving DecidableEq

/-- A desired router as validated by the module's argument spec: every
suboption key is present, `peer`/`peer_groups` may be `None`, while
`metric` and `masquerade` carry their declared defaults. -/
structure DRouter where
  peer : Option String
  peer_groups : Option (List String)
  metric : Int
  masquerade : Bool
deriving DecidableEq

/-- Key of a current router record (`get_router_key(r)`). -/
def currentRouterKey (r : CRouter) : RKey :=
  get_router_key ⟨r.peer, r.peer_groups⟩

/-- Key of a desired router, built inline in `sync_routers`
(`router.get('peer', '')` and `tuple(sorted(router.get('peer_groups', []) or []))`
on the parameter dict, whose keys are always present). -/
def desiredRouterKey (d : DRouter) : RKey :=
  get_router_key ⟨optField d.peer, optField d.peer_groups⟩

/-- `router_needs_update(current, desired)` from netbird_network.py:
compares `current.get('metric')` with `desired.get('metric', 9999)` and
`current.get('masquerade')` with `desired.get('masquerade', False)`
(the desired dict always carries both keys with their defaults filled). -/
def router_needs_update (current : CRouter) (desired : DRouter) : Bool :=
  decide (¬ pyGet current.metric = some desired.metric)
    || decide (¬ pyGet current.masquerade = some desired.masquerade)

/-- The arguments of `api.create_network_router` / `api.update_network_router`
as `sync_routers` passes them: `peer_id = peer if peer else None`,
`peer_groups = list(peer_groups_tuple) if peer_groups_tuple else None`,
plus metric and masquerade from the desired record. -/
structure RouterPayload where
  peer_id : Option String
  peer_groups : Option (List String)
  metric : Int
  masquerade : Bool
deriving DecidableEq

/-- Payload built from a desired dict entry `(key, desired)` in the
create/update loop of `sync_routers`. -/
def routerPayload (k : RKey) (d : DRouter) : RouterPayload :=
  ⟨truthyStr k.1, if k.2.isEmpty then none else some k.2, d.metric, d.masquerade⟩

/-- A remote resource record (JSON object). -/
structure CResource where
  id : String
  address : PyField String
  name : PyField String
  description : PyField String
  enabled : PyField Bool
  groups : PyField (List String)
deriving DecidableEq

/-- A desired resource as validated by the argument spec (`address` is
required, the other suboptions carry their declared defaults). -/
structure DResource where
  address : String
  name : String
  description : String
  enabled : Bool
  groups : List String
deriving DecidableEq

/-- `resource_needs_update(current, desired)` from netbird_network.py. -/
def resource_needs_update (current : CResource) (desired : DResource) : Bool :=
  decide (¬ pyGetD current.name "" = some desired.name)
    || decide (¬ pyGetD current.description "" = some desired.description)
    || decide (¬ pyGetD current.enabled true = some desired.enabled)
    || !setEq (pyListOr current.groups) desired.groups

/-- The arguments of `api.create_network_resource` /
`api.update_network_resource` as `sync_resources` passes them. -/
structure ResourcePayload where
  address : String
  name : String
  description : String
  enabled : Bool
  groups : List String
deriving DecidableEq

/-- Payload built from a desired resource in `sync_resources` (the
`address` variable of the loop equals the desired record's address). -/
def resourcePayload (d : DResource) : ResourcePayload :=
  ⟨d.address, d.name, d.description, d.enabled, d.groups⟩

/-! ## The sync executor

`sync_routers` and `sync_resources` share one loop shape: index current
and desired by natural key, walk the desired index creating or updating,
then walk the current index deleting entries absent from the desired
index.  The shape is captured once by `cuLoop`/`delLoop`/`syncLoop` and
instantiated for routers and resources; mutating collaborator calls are
recorded as `SyncCall` values in issue order. -/

/-- A mutating collaborator call issued by a sync loop. -/
inductive SyncCall (P : Type) where
  | create : P → SyncCall P
  | update : String → P → SyncCall P
  | delete : String → SyncCall P
deriving DecidableEq

/-- Whether a call is a delete. -/
def SyncCall.isDelete {P : Type} : SyncCall P → Bool
  | .delete _ => true
  | _ => false

/-- The entity-specific pieces of a sync loop: key derivation, the
needs-update comparison, payload construction, the server id of a
current record, and the records the collaborator returns from create
and update calls. -/
structure SyncOps (K C D P : Type) where
  keyOfCurrent : C → K
  keyOfDesired : D → K
  needsUpdate : C → D → Bool
  payload : K → D → P
  idOf : C → String
  srvCreate : P → C
  srvUpdate : String → P → C

/-- The create-or-update loop (`for key, desired in desired_by_key.items()`):
returns the changed flag contribution, the `final` list built so far, and
the mutating calls issued, in order. -/
def cuLoop {K C D P : Type} [DecidableEq K] (ops : SyncOps K C D P) (check : Bool)
    (curBy : List (K × C)) : List (K × D) → Bool × List C × List (SyncCall P)
  | [] => (false, [], [])
  | (k, d) :: rest =>
    let r := cuLoop ops check curBy rest
    match dlookup curBy k with
    | some c =>
      if ops.needsUpdate c d then
        if check then (true, c :: r.2.1, r.2.2)
        else
          let p := ops.payload k d
          (true, ops.srvUpdate (ops.idOf c) p :: r.2.1,
            SyncCall.update (ops.idOf c) p :: r.2.2)
      else (r.1, c :: r.2.1, r.2.2)
    | none =>
      if check then (true, r.2.1, r.2.2)
      else
        let p := ops.payload k d
        (true, ops.srvCreate p :: r.2.1, SyncCall.create p :: r.2.2)

/-- The delete loop (`for key, current in current_by_key.items()`): delete
every current entry whose key is not in the desired index. -/
def delLoop {K C D P : Type} [DecidableEq K] (ops : SyncOps K C D P) (check : Bool)
    (desBy : List (K × D)) : List (K × C) → Bool × List (SyncCall P)
  | [] => (false, [])
  | (k, c) :: rest =>
    let r := delLoop ops check desBy rest
    if (dlookup desBy k).isSome then r
    else (true, (if check then [] else [SyncCall.delete (ops.idOf c)]) ++ r.2)

/-- The whole sync: index both sides, create/update, then delete.
Returns `(changed, final list, mutating calls in issue order)`. -/
def syncLoop {K C D P : Type} [DecidableEq K] (ops : SyncOps K C D P) (check : Bool)
    (cur : List C) (des : List D) : Bool × List C × List (SyncCall P) :=
  let curBy := pyDict (cur.map (fun c => (ops.keyOfCurrent c, c)))
  let desBy := pyDict (des.map (fun d => (ops.keyOfDesired d, d)))
  let s := cuLoop ops check curBy desBy
  let t := delLoop ops check desBy curBy
  (s.1 || t.1, s.2.1, s.2.2 ++ t.2)

/-- The collaborator's responses to router create/update calls (opaque to
the module; the module folds them into its result list). -/
structure RouterServer where
  create : RouterPayload → CRouter
  update : String → RouterPayload → CRouter

/-- The collaborator's responses to resource create/update calls. -/
structure ResourceServer where
  create : ResourcePayload → CResource
  update : String → ResourcePayload → CResource

/-- The `SyncOps` instantiation for `sync_routers`. -/
def routerOps (srv : RouterServer) : SyncOps RKey CRouter DRouter RouterPayload :=
  ⟨currentRouterKey, desiredRouterKey, router_needs_update, routerPayload,
    CRouter.id, srv.create, srv.update⟩

/-- The `SyncOps` instantiation for `sync_resources` (current records are
indexed by `r.get('address')`, desired ones by `r['address']`). -/
def resourceOps (srv : ResourceServer) :
    SyncOps (Option String) CResource DResource ResourcePayload :=
  ⟨fun c => pyGet c.address, fun d => some d.address, resource_needs_update,
    fun _ d => resourcePayload d, CResource.id, srv.create, srv.update⟩

/-- `sync_routers(api, module, network_id, desired_routers)`. -/
def sync_routers (srv : RouterServer) (check : Bool)
    (cur : List CRouter) (des : List DRouter) :
    Bool × List CRouter × List (SyncCall RouterPayload) :=
  syncLoop (routerOps srv) check cur des

/-- `sync_resources(api, module, network_id, desired_resources)`. -/
def sync_resources (srv : ResourceServer) (check : Bool)
    (cur : List CResource) (des : List DResource) :
    Bool × List CResource × List (SyncCall ResourcePayload) :=
  syncLoop (resourceOps srv) check cur des

/-- The desired router index `desired_by_key` built by `sync_routers`. -/
def desiredRouterIndex (des : List DRouter) : List (RKey × DRouter) :=
  pyDict (des.map (fun d => (desiredRouterKey d, d)))

/-- The current router index `current_by_key` built by `sync_routers`. -/
def currentRouterIndex (cur : List CRouter) : List (RKey × CRouter) :=
  pyDict (cur.map (fun c => (currentRouterKey c, c)))

/-- The desired resource index `desired_by_address` of `sync_resources`. -/
def desiredResourceIndex (des : List DResource) : List (Option String × DResource) :=
  pyDict (des.map (fun d => ((some d.address : Option String), d)))

/-- The current resource index `current_by_address` of `sync_resources`. -/
def currentResourceIndex (cur : List CResource) : List (Option String × CResource) :=
  pyDict (cur.map (fun c => (pyGet c.address, c)))

/-- The router leg of `run_module` (`if routers is not None: sync_routers(...)`):
an omitted parameter skips the sync entirely.  Returns the changed flag
and the mutating calls issued. -/
def routersPhase (srv : RouterServer) (check : Bool) (cur : List CRouter) :
    Option (List DRouter) → Bool × List (SyncCall RouterPayload)
  | none => (false, [])
  | some des => ((sync_routers srv check cur des).1, (sync_routers srv check cur des).2.2)

/-- The resource leg of `run_module` (`if resources is not None: ...`). -/
def resourcesPhase (srv : ResourceServer) (check : Bool) (cur : List CResource) :
    Option (List DResource) → Bool × List (SyncCall ResourcePayload)
  | none => (false, [])
  | some des => ((sync_resources srv check cur des).1, (sync_resources srv check cur des).2.2)

/-! ## Account settings patch (netbird_account.py) -/

/-- `settings_need_update(current_settings, desired_settings)`: true iff
some desired item's value differs from the current dict's value for that
key (`current_settings.get(key) != value`; an absent key yields `None`,
which differs from every supplied value). -/
def settings_need_update {V : Type} [DecidableEq V]
    (current_settings desired_settings : List (String × V)) : Bool :=
  desired_settings.any (fun p => decide (¬ dlookup current_settings p.1 = some p.2))

/-- A mutating collaborator call of the account module. -/
inductive AccountCall (V : Type) where
  | updateAccount : List (String × V) → AccountCall V
deriving DecidableEq

/-- The `state == 'present'` settings leg of `run_module` in
netbird_account.py: if any settings were supplied and differ, send
`\x7b**current_settings, **desired_settings\x7d` (unless in check mode) and
report changed. -/
def account_settings_sync {V : Type} [DecidableEq V] (check : Bool)
    (current_settings desired_settings : List (String × V)) :
    Bool × List (AccountCall V) :=
  if desired_settings.isEmpty then (false, [])
  else if settings_need_update current_settings desired_settings then
    (true, if check then [] else [AccountCall.updateAccount (pyMerge current_settings desired_settings)])
  else (false, [])

/-! ## Policy module (netbird_policy.py) -/

/-- A policy record fetched from the remote system; rule payloads are
opaque to the diff logic. -/
structure PolicyRec where
  id : String
  name : Option String
  description : Option String
  enabled : Option Bool
  rules : Option (List String)
deriving DecidableEq

/-- The module parameters relevant to `policy_needs_update`. -/
structure PolicyParams where
  name : Option String
  description : Option String
  enabled : Option Bool
  rules : Option (List String)
deriving DecidableEq

/-- `policy_needs_update(current, params)`: field comparisons for name,
description and enabled; rules force an update whenever supplied
("For rules, always update if provided to ensure they match exactly"). -/
def policy_needs_update (current : PolicyRec) (params : PolicyParams) : Bool :=
  (params.name.isSome && decide (¬ current.name = params.name))
    || (params.description.isSome && decide (¬ current.description = params.description))
    || (params.enabled.isSome && decide (¬ current.enabled = params.enabled))
    || params.rules.isSome

/-- A mutating collaborator call of the policy module. -/
inductive PolicyCall where
  | updatePolicy : String → Option String → Option Bool → Option String →
      Option (List String) → PolicyCall
  | createPolicy : String → Option Bool → Option String → List String → PolicyCall
  | deletePolicy : String → PolicyCall
deriving DecidableEq

/-- The `state == 'present'` leg of `run_module` in netbird_policy.py,
given the already-resolved existing policy.  Returns the changed flag and
the mutating calls, or the `fail_json` message. -/
def policy_present (check : Bool) (existing : Option PolicyRec) (p : PolicyParams) :
    Except String (Bool × List PolicyCall) :=
  match existing with
  | some cur =>
    if policy_needs_update cur p then
      Except.ok (true,
        if check then []
        else [PolicyCall.updatePolicy cur.id p.name p.enabled p.description p.rules])
    else Except.ok (false, [])
  | none =>
    match p.name with
    | none => Except.error "name is required when creating a new policy"
    | some nm =>
      if nm = "" then Except.error "name is required when creating a new policy"
      else Except.ok (true,
        if check then []
        else [PolicyCall.createPolicy nm p.enabled p.description (p.rules.getD [])])

/-! ## Nameserver groups (netbird_dns.py) and posture checks -/

/-- A nameserver-group record fetched from the remote system. -/
structure NsGroupRec where
  id : String
  name : Option String
  description : Option String
  enabled : Option Bool
  primary : Option Bool
  search_domains_enabled : Option Bool
  groups : Option (List String)
  domains : Option (List String)
deriving DecidableEq

/-- The parameters `run_module` hands to `nsgroup_needs_update`
(nameserver dicts are opaque to the diff logic). -/
structure NsGroupParams where
  name : Option String
  description : Option String
  nameservers : Option (List String)
  groups : Option (List String)
  domains : Option (List String)
  enabled : Option Bool
  primary : Option Bool
  search_domains_enabled : Option Bool
deriving DecidableEq

/-- `nsgroup_needs_update(current, params)` from netbird_dns.py: scalar
fields compare by equality when supplied, nameservers force an update
whenever supplied ("Always update if nameservers provided"), groups and
domains compare as sets. -/
def nsgroup_needs_update (current : NsGroupRec) (params : NsGroupParams) : Bool :=
  (params.name.isSome && decide (¬ current.name = params.name))
    || (params.description.isSome && decide (¬ current.description = params.description))
    || (params.enabled.isSome && decide (¬ current.enabled = params.enabled))
    || (params.primary.isSome && decide (¬ current.primary = params.primary))
    || (params.search_domains_enabled.isSome
        && decide (¬ current.search_domains_enabled = params.search_domains_enabled))
    || params.nameservers.isSome
    || (match params.groups with
        | none => false
        | some g => !setEq (current.groups.getD []) g)
    || (match params.domains with
        | none => false
        | some d => !setEq (current.domains.getD []) d)

/-- A posture-check record fetched from the remote system. -/
structure PostureCheckRec where
  id : String
  name : Option String
  description : Option String
deriving DecidableEq

/-- The parameters `run_module` hands to `posture_check_needs_update`
(the `checks` configuration dict is opaque to the diff logic). -/
structure PostureCheckParams where
  name : Option String
  description : Option String
  checks : Option (List (String × String))
deriving DecidableEq

/-- `posture_check_needs_update(current, params)` from
netbird_posture_check.py: name/description compare by equality when
supplied, checks force an update whenever supplied. -/
def posture_check_needs_update (current : PostureCheckRec)
    (params : PostureCheckParams) : Bool :=
  (params.name.isSome && decide (¬ current.name = params.name))
    || (params.description.isSome && decide (¬ current.description = params.description))
    || params.checks.isSome

/-! ## Error translation (netbird_api.py, `NetBirdAPI._request`) -/

/-- The response data attached to a `NetBirdAPIError`: the JSON-parsed
error body when it parses as a dict (values opaque strings), an opaque
marker for other parseable JSON, or the decoded raw text. -/
inductive RespData where
  | jdict : List (String × String) → RespData
  | jother : RespData
  | raw : String → RespData
deriving DecidableEq

/-- The body of a non-success HTTP response together with its parse
status (`e.read()` followed by `json.loads`). -/
inductive HTTPBody where
  | empty : HTTPBody
  | parsesDict : List (String × String) → HTTPBody
  | parsesOther : HTTPBody
  | unparseable : String → HTTPBody
deriving DecidableEq

/-- The `NetBirdAPIError` exception: message, `status_code` (default
`None`), `response` (default `None`). -/
structure NetBirdAPIError where
  message : String
  status_code : Option Int
  response : Option RespData
deriving DecidableEq

/-- A transport-level failure of `open_url` inside `_request`. -/
inductive TransportFailure where
  | httpError : Int → String → HTTPBody → TransportFailure
  | urlError : String → TransportFailure
  | sslError : String → TransportFailure
deriving DecidableEq

/-- The error translation of `_request`: each transport failure is mapped
to exactly one `NetBirdAPIError`.  An `HTTPError` carries its status code
and the parsed body; `URLError` and `ssl.SSLError` (no response received)
carry the sentinel status code `-1` and no response data. -/
def translateFailure : TransportFailure → NetBirdAPIError
  | .httpError code reason body =>
    match body with
    | .empty => ⟨"API request failed: " ++ reason, some code, none⟩
    | .parsesDict d =>
      ⟨"API request failed: "
          ++ ((dlookup d "message").or (dlookup d "error")).getD reason,
        some code, some (RespData.jdict d)⟩
    | .parsesOther => ⟨"API request failed: " ++ reason, some code, some RespData.jother⟩
    | .unparseable s => ⟨"API request failed: " ++ reason, some code, some (RespData.raw s)⟩
  | .urlError reason =>
    ⟨"Failed to connect to API: " ++ reason, some (-1), none⟩
  | .sslError msg =>
    ⟨"SSL error: " ++ msg
        ++ ". Try setting validate_certs=false if using self-signed certificates.",
      some (-1), none⟩

/-! ## Absent-state flows (netbird_network.py / netbird_dns.py) -/

/-- A network record as the absent flow sees it. -/
structure NetRec where
  id : String
  name : Option String
deriving DecidableEq

/-- `find_network_by_name(api, name)`: linear scan comparing
`network.get('name') == name`. -/
def find_network_by_name (networks : List NetRec) (name : String) : Option NetRec :=
  networks.find? (fun n => decide (n.name = some name))

/-- The outcome of `api.get_network(network_id)`. -/
inductive NetGetOutcome where
  | found : NetRec → NetGetOutcome
  | apiError : NetBirdAPIError → NetGetOutcome
deriving DecidableEq

/-- The id-based lookup of `run_module`: `get_network` wrapped in
`except NetBirdAPIError as e: if e.status_code != 404: raise`. -/
def resolve_network_by_id : NetGetOutcome → Except NetBirdAPIError (Option NetRec)
  | .found n => Except.ok (some n)
  | .apiError e =>
    if e.status_code = some 404 then Except.ok none else Except.error e

/-- A mutating collaborator call of the network module's absent flow. -/
inductive NetworkCall where
  | deleteNetwork : String → NetworkCall
deriving DecidableEq

/-- The `state == 'absent'` branch of netbird_network.py's `run_module`:
delete when a network was found (unless in check mode), otherwise report
no change; exits with the result either way. -/
def network_absent (check : Bool) (existing : Option NetRec) :
    Bool × List NetworkCall × Option String :=
  match existing with
  | some n =>
    (true, (if check then [] else [NetworkCall.deleteNetwork n.id]),
      some "Network deleted successfully")
  | none => (false, [], none)

/-- The full id-based absent run: resolve, absorbing only 404, then the
absent branch; any other lookup failure propagates to `fail_json`. -/
def run_network_absent_by_id (check : Bool) (g : NetGetOutcome) :
    Except NetBirdAPIError (Bool × List NetworkCall × Option String) :=
  match resolve_network_by_id g with
  | Except.ok existing => Except.ok (network_absent check existing)
  | Except.error e => Except.error e

/-- `find_nsgroup_by_name(api, name)` from netbird_dns.py. -/
def find_nsgroup_by_name (groups : List NsGroupRec) (name : String) : Option NsGroupRec :=
  groups.find? (fun n => decide (n.name = some name))

/-- The outcome of `api.get_nameserver_group(nsgroup_id)`. -/
inductive NsGroupGetOutcome where
  | found : NsGroupRec → NsGroupGetOutcome
  | apiError : NetBirdAPIError → NsGroupGetOutcome
deriving DecidableEq

/-- The id-based nameserver-group lookup of netbird_dns.py's
`run_module`, absorbing only 404. -/
def resolve_nsgroup_by_id : NsGroupGetOutcome → Except NetBirdAPIError (Option NsGroupRec)
  | .found n => Except.ok (some n)
  | .apiError e =>
    if e.status_code = some 404 then Except.ok none else Except.error e

/-- A mutating collaborator call of the dns module's absent flow. -/
inductive DnsCall where
  | deleteNameserverGroup : String → DnsCall
deriving DecidableEq

/-- The `state == 'absent'` branch of netbird_dns.py's `run_module`. -/
def nsgroup_absent (check : Bool) (existing : Option NsGroupRec) :
    Bool × List DnsCall × Option String :=
  match existing with
  | some n =>
    (true, (if check then [] else [DnsCall.deleteNameserverGroup n.id]),
      some "Nameserver group deleted successfully")
  | none => (false, [], none)

/-- The full id-based absent run for nameserver groups. -/
def run_nsgroup_absent_by_id (check : Bool) (g : NsGroupGetOutcome) :
    Except NetBirdAPIError (Bool × List DnsCall × Option String) :=
  match resolve_nsgroup_by_id g with
  | Except.ok existing => Except.ok (nsgroup_absent check existing)
  | Except.error e => Except.error e

/-- A token record as the token module's absent flow sees it. -/
structure TokenRec where
  id : String
  name : Option String
deriving DecidableEq

/-- A mutating collaborator call of the token module
(`api.delete_token(user_id, token_id)`). -/
inductive TokenCall where
  | deleteToken : String → String → TokenCall
deriving DecidableEq

/-- `find_token_by_name(api, user_id, name)` from netbird_token.py:
linear scan of the user's tokens comparing `token.get('name') == name`. -/
def find_token_by_name (tokens : List TokenRec) (name : String) : Option TokenRec :=
  tokens.find? (fun t => decide (t.name = some name))

/-- The `state == 'absent'` branch of netbird_token.py's `run_module`
(lines 163-177).  `tokens` is the user's remote token list as
`api.list_tokens(user_id)` would return it.  With a truthy `token_id`
the delete is issued unconditionally — no existence lookup consults
`tokens` at all — and changed=true is reported; with only a name the
token is looked up first and absence leaves the result unchanged. -/
def token_absent (check : Bool) (user_id : String) (token_id : Option String)
    (name : Option String) (tokens : List TokenRec) :
    Bool × List TokenCall × Option String :=
  match truthyStr token_id with
  | some tid =>
    (true, (if check then [] else [TokenCall.deleteToken user_id tid]),
      some "Token deleted successfully")
  | none =>
    match truthyStr name with
    | some nm =>
      match find_token_by_name tokens nm with
      | some t =>
        (true, (if check then [] else [TokenCall.deleteToken user_id t.id]),
          some "Token deleted successfully")
      | none => (false, [], none)
    | none => (false, [], none)

/-! ## Fixtures for concrete runs -/

/-- An arbitrary record for the mock collaborator to return. -/
def dummyRouter : CRouter :=
  ⟨"srv-router", PyField.absent, PyField.absent, PyField.absent, PyField.absent⟩

/-- A mock router collaborator with a fixed response. -/
def fixedRouterServer : RouterServer :=
  ⟨fun _ => dummyRouter, fun _ _ => dummyRouter⟩

/-- An arbitrary resource record for the mock collaborator to return. -/
def dummyResource : CResource :=
  ⟨"srv-resource", PyField.absent, PyField.absent, PyField.absent,
    PyField.absent, PyField.absent⟩

/-- A mock resource collaborator with a fixed response. -/
def fixedResourceServer : ResourceServer :=
  ⟨fun _ => dummyResource, fun _ _ => dummyResource⟩

/-- A desired index entry is already realized: its key finds a current
record and the needs-update comparison reports no difference. -/
def cuEntryOk {K C D : Type} [DecidableEq K] (needs : C → D → Bool)
    (curBy : List (K × C)) (kd : K × D) : Bool :=
  match dlookup curBy kd.1 with
  | some c => !needs c kd.2
  | none => false

/-- The remote router collection realizes the desired spec: every desired
index entry finds a current record with the same NaturalKey and no field
difference, and every current index entry's key is desired.  This is the
state reached when a previous run of the same desired spec converged and
the remote was not changed since. -/
def routersConverged (cur : List CRouter) (des : List DRouter) : Bool :=
  (desiredRouterIndex des).all (cuEntryOk router_needs_update (currentRouterIndex cur))
  && (currentRouterIndex cur).all (fun kc =>
      (dlookup (desiredRouterIndex des) kc.1).isSome)

/-! ## Lemmas about the Python dict model -/

section PyDictLemmas

variable {K V : Type} [DecidableEq K]

theorem dlookup_nil (k : K) : dlookup ([] : List (K × V)) k = none := rfl

theorem dlookup_cons (p : K × V) (m : List (K × V)) (k : K) :
    dlookup (p :: m) k = if p.1 = k then some p.2 else dlookup m k := by
  by_cases h : p.1 = k <;> simp [dlookup, List.find?_cons, h]

theorem dlookup_append (a b : List (K × V)) (k : K) :
    dlookup (a ++ b) k = (dlookup a k).or (dlookup b k) := by
  simp only [dlookup, List.find?_append]
  cases List.find? (fun p => decide (p.1 = k)) a <;> simp

theorem dlookup_eq_none_iff (m : List (K × V)) (k : K) :
    dlookup m k = none ↔ ∀ p ∈ m, p.1 ≠ k := by
  simp [dlookup, List.find?_eq_none]

theorem dlookup_pyd_insert (m : List (K × V)) (k k' : K) (v : V) :
    dlookup (pyd_insert m k v) k' = if k' = k then some v else dlookup m k' := by
  induction m with
  | nil =>
    by_cases hk : k' = k
    · subst hk; simp [pyd_insert, dlookup_cons]
    · have hne : ¬ k = k' := fun h => hk h.symm
      simp [pyd_insert, dlookup_cons, hne, hk]
  | cons p m ih =>
    by_cases hp : p.1 = k
    · by_cases hk : k' = k
      · subst hk
        simp [pyd_insert, hp, dlookup_cons]
      · have hne : ¬ k = k' := fun h => hk h.symm
        have hne2 : ¬ p.1 = k' := fun h => hk (h ▸ hp)
        simp [pyd_insert, hp, dlookup_cons, hne, hk, hne2]
    · by_cases hk : k' = k
      · subst hk
        simp [pyd_insert, hp, dlookup_cons, ih]
      · simp [pyd_insert, hp, dlookup_cons, ih, hk]

theorem pyd_insert_of_absent (m : List (K × V)) (k : K) (v : V)
    (h : dlookup m k = none) : pyd_insert m k v = m ++ [(k, v)] := by
  induction m with
  | nil => rfl
  | cons p m ih =>
    rw [dlookup_cons] at h
    by_cases hp : p.1 = k
    · simp [hp] at h
    · simp only [if_neg hp] at h
      simp [pyd_insert, hp, ih h]

theorem dlookup_foldl_insert (l : List (K × V)) :
    ∀ (m : List (K × V)) (k : K),
      dlookup (l.foldl (fun acc p => pyd_insert acc p.1 p.2) m) k =
        (revLookup l k).or (dlookup m k) := by
  induction l with
  | nil => intro m k; simp [revLookup]
  | cons p l ih =>
    intro m k
    simp only [List.foldl_cons, ih, dlookup_pyd_insert]
    have hrev : revLookup (p :: l) k =
        (revLookup l k).or (if p.1 = k then some p.2 else none) := by
      simp only [revLookup, List.reverse_cons, List.find?_append]
      have hsing : List.find? (fun q => decide (q.1 = k)) [p] =
          if p.1 = k then some p else none := by
        by_cases hp : p.1 = k <;> simp [List.find?_cons, hp]
      rw [hsing]
      cases hf : List.find? (fun q => decide (q.1 = k)) l.reverse
      · by_cases hp : p.1 = k <;> simp [hp]
      · simp
    rw [hrev, Option.or_assoc]
    congr 1
    by_cases hp : p.1 = k
    · have hk : k = p.1 := hp.symm
      rw [if_pos hp, if_pos hk]
      simp
    · have hk : ¬ k = p.1 := fun h => hp h.symm
      rw [if_neg hp, if_neg hk, Option.none_or]

theorem dlookup_pyDict (l : List (K × V)) (k : K) :
    dlookup (pyDict l) k = revLookup l k := by
  rw [pyDict, dlookup_foldl_insert, dlookup_nil, Option.or_none]

theorem dlookup_pyMerge (c d : List (K × V)) (k : K) :
    dlookup (pyMerge c d) k = (revLookup d k).or (dlookup c k) := by
  rw [pyMerge, dlookup_foldl_insert]

theorem foldl_insert_of_fresh (l : List (K × V)) :
    ∀ m : List (K × V), (l.map Prod.fst).Nodup →
      (∀ p ∈ l, dlookup m p.1 = none) →
      l.foldl (fun acc p => pyd_insert acc p.1 p.2) m = m ++ l := by
  induction l with
  | nil => intro m _ _; simp
  | cons p l ih =>
    intro m hnodup hfresh
    have hmem : dlookup m p.1 = none := hfresh p (by simp)
    simp only [List.foldl_cons, pyd_insert_of_absent m p.1 p.2 hmem]
    have hmc : List.map Prod.fst (p :: l) = p.1 :: List.map Prod.fst l := rfl
    rw [hmc] at hnodup
    have hcons := List.nodup_cons.mp hnodup
    have hnodup' : (l.map Prod.fst).Nodup := hcons.2
    have hhead : p.1 ∉ l.map Prod.fst := hcons.1
    have hfresh' : ∀ q ∈ l, dlookup (m ++ [(p.1, p.2)]) q.1 = none := by
      intro q hq
      rw [dlookup_append, hfresh q (by simp [hq])]
      have hne : ¬ p.1 = q.1 := by
        intro h
        exact hhead (h ▸ List.mem_map_of_mem Prod.fst hq)
      simp [dlookup_cons, hne, dlookup_nil]
    rw [ih (m ++ [(p.1, p.2)]) hnodup' hfresh', List.append_assoc]
    rfl

theorem pyDict_eq_self (l : List (K × V)) (h : (l.map Prod.fst).Nodup) :
    pyDict l = l := by
  rw [pyDict, foldl_insert_of_fresh l [] h (fun p _ => rfl)]
  rfl

theorem dlookup_pyDict_map {α : Type} (l : List α) (key : α → K) (k : K) :
    dlookup (pyDict (l.map (fun a => (key a, a)))) k =
      l.reverse.find? (fun a => decide (key a = k)) := by
  rw [dlookup_pyDict]
  simp only [revLookup, ← List.map_reverse, List.find?_map]
  rw [Option.map_map]
  have h1 : ((fun (p : K × α) => decide (p.1 = k)) ∘ (fun a => (key a, a))) =
      fun a => decide (key a = k) := rfl
  rw [h1]
  have h2 : (Prod.snd ∘ (fun a => ((key a, a) : K × α))) = id := rfl
  rw [h2]
  simp

end PyDictLemmas

/-! ## Lemmas about the string ordering -/

theorem charListLe_total (as : List Char) :
    ∀ bs, charListLe as bs = true ∨ charListLe bs as = true := by
  induction as with
  | nil => intro bs; left; simp [charListLe]
  | cons a as ih =>
    intro bs
    cases bs with
    | nil => right; simp [charListLe]
    | cons b bs =>
      by_cases h1 : a.toNat < b.toNat
      · left; simp [charListLe, h1]
      · by_cases h2 : b.toNat < a.toNat
        · right; simp [charListLe, h1, h2]
        · rcases ih bs with h | h
          · left; simp [charListLe, h1, h2, h]
          · right; simp [charListLe, h1, h2, h]

theorem charListLe_trans (as : List Char) :
    ∀ bs cs, charListLe as bs = true → charListLe bs cs = true →
      charListLe as cs = true := by
  induction as with
  | nil => intro bs cs _ _; simp [charListLe]
  | cons a as ih =>
    intro bs cs h1 h2
    cases bs with
    | nil => simp [charListLe] at h1
    | cons b bs =>
      cases cs with
      | nil => simp [charListLe] at h2
      | cons c cs =>
        have h1' : a.toNat < b.toNat ∨
            (¬ a.toNat < b.toNat ∧ ¬ b.toNat < a.toNat ∧ charListLe as bs = true) := by
          by_cases hab : a.toNat < b.toNat
          · exact Or.inl hab
          · by_cases hba : b.toNat < a.toNat
            · simp [charListLe, hab, hba] at h1
            · exact Or.inr ⟨hab, hba, by simpa [charListLe, hab, hba] using h1⟩
        have h2' : b.toNat < c.toNat ∨
            (¬ b.toNat < c.toNat ∧ ¬ c.toNat < b.toNat ∧ charListLe bs cs = true) := by
          by_cases hbc : b.toNat < c.toNat
          · exact Or.inl hbc
          · by_cases hcb : c.toNat < b.toNat
            · simp [charListLe, hbc, hcb] at h2
            · exact Or.inr ⟨hbc, hcb, by simpa [charListLe, hbc, hcb] using h2⟩
        rcases h1' with hab | ⟨hab, hba, ht1⟩ <;> rcases h2' with hbc | ⟨hbc, hcb, ht2⟩
        · have h : a.toNat < c.toNat := by omega
          simp [charListLe, h]
        · have h : a.toNat < c.toNat := by omega
          simp [charListLe, h]
        · have h : a.toNat < c.toNat := by omega
          simp [charListLe, h]
        · have hac : ¬ a.toNat < c.toNat := by omega
          have hca : ¬ c.toNat < a.toNat := by omega
          simp [charListLe, hac, hca, ih bs cs ht1 ht2]

theorem charListLe_antisymm (as : List Char) :
    ∀ bs, charListLe as bs = true → charListLe bs as = true → as = bs := by
  induction as with
  | nil =>
    intro bs _ h2
    cases bs with
    | nil => rfl
    | cons b bs => simp [charListLe] at h2
  | cons a as ih =>
    intro bs h1 h2
    cases bs with
    | nil => simp [charListLe] at h1
    | cons b bs =>
      by_cases hab : a.toNat < b.toNat
      · have hba : ¬ b.toNat < a.toNat := Nat.lt_asymm hab
        simp [charListLe, hab, hba] at h2
      · by_cases hba : b.toNat < a.toNat
        · simp [charListLe, hab, hba] at h1
        · have heq : a = b := by
            apply Char.ext
            apply UInt32.ext
            have ha : a.val.toNat = a.toNat := rfl
            have hb : b.val.toNat = b.toNat := rfl
            omega
          have ht1 : charListLe as bs = true := by
            simpa [charListLe, hab, hba] using h1
          have ht2 : charListLe bs as = true := by
            simpa [charListLe, hab, hba] using h2
          rw [heq, ih bs ht1 ht2]

instance : IsTotal String strLe :=
  ⟨fun a b => charListLe_total a.data b.data⟩

instance : IsTrans String strLe :=
  ⟨fun a b c => charListLe_trans a.data b.data c.data⟩

instance : IsAntisymm String strLe :=
  ⟨fun a b h1 h2 => by
    have h := charListLe_antisymm a.data b.data h1 h2
    cases a
    cases b
    exact congrArg String.mk h⟩

theorem sortStr_perm_invariant {l l' : List String} (h : l.Perm l') :
    sortStr l = sortStr l' := by
  refine List.eq_of_perm_of_sorted ?_
    (List.sorted_insertionSort strLe l) (List.sorted_insertionSort strLe l')
  exact (List.perm_insertionSort strLe l).trans
    (h.trans (List.perm_insertionSort strLe l').symm)

section SyncLemmas

variable {K C D P : Type} [DecidableEq K]

theorem cuLoop_changed_congr (ops ops' : SyncOps K C D P) (check check' : Bool)
    (curBy : List (K × C)) (h : ops.needsUpdate = ops'.needsUpdate) :
    ∀ entries, (cuLoop ops check curBy entries).1 = (cuLoop ops' check' curBy entries).1 := by
  intro entries
  induction entries with
  | nil => rfl
  | cons kd rest ih =>
    obtain ⟨k, d⟩ := kd
    simp only [cuLoop]
    cases hc : dlookup curBy k with
    | some c =>
      rw [h]
      cases hu : ops'.needsUpdate c d
      · simpa [hu] using ih
      · cases check <;> cases check' <;> simp [hu]
    | none => cases check <;> cases check' <;> simp

theorem delLoop_changed_congr (ops ops' : SyncOps K C D P) (check check' : Bool)
    (desBy : List (K × D)) :
    ∀ entries, (delLoop ops check desBy entries).1 = (delLoop ops' check' desBy entries).1 := by
  intro entries
  induction entries with
  | nil => rfl
  | cons kc rest ih =>
    obtain ⟨k, c⟩ := kc
    simp only [delLoop]
    cases hd : (dlookup desBy k).isSome
    · simp [hd]
    · simpa [hd] using ih

theorem cuLoop_check_calls (ops : SyncOps K C D P) (curBy : List (K × C)) :
    ∀ entries, (cuLoop ops true curBy entries).2.2 = [] := by
  intro entries
  induction entries with
  | nil => rfl
  | cons kd rest ih =>
    obtain ⟨k, d⟩ := kd
    simp only [cuLoop]
    cases hc : dlookup curBy k with
    | some c => cases hu : ops.needsUpdate c d <;> simp [hu, ih]
    | none => simpa using ih

theorem delLoop_check_calls (ops : SyncOps K C D P) (desBy : List (K × D)) :
    ∀ entries, (delLoop ops true desBy entries).2 = [] := by
  intro entries
  induction entries with
  | nil => rfl
  | cons kc rest ih =>
    obtain ⟨k, c⟩ := kc
    simp only [delLoop]
    cases hd : (dlookup desBy k).isSome <;> simp [hd, ih]

theorem cuLoop_check_final (ops : SyncOps K C D P) (curBy : List (K × C)) :
    ∀ entries, (cuLoop ops true curBy entries).2.1 =
      entries.filterMap (fun kd => dlookup curBy kd.1) := by
  intro entries
  induction entries with
  | nil => rfl
  | cons kd rest ih =>
    obtain ⟨k, d⟩ := kd
    simp only [cuLoop, List.filterMap_cons]
    cases hc : dlookup curBy k with
    | some c => cases hu : ops.needsUpdate c d <;> simp [hu, ih]
    | none => simpa using ih

theorem cuLoop_calls_no_delete (ops : SyncOps K C D P) (check : Bool)
    (curBy : List (K × C)) :
    ∀ entries, ∀ call ∈ (cuLoop ops check curBy entries).2.2,
      call.isDelete = false := by
  intro entries
  induction entries with
  | nil => intro call h; simp [cuLoop] at h
  | cons kd rest ih =>
    obtain ⟨k, d⟩ := kd
    intro call h
    simp only [cuLoop] at h
    cases hc : dlookup curBy k with
    | some c =>
      simp only [hc] at h
      cases hu : ops.needsUpdate c d
      · simp only [hu, Bool.false_eq_true, if_false] at h
        exact ih call h
      · simp only [hu, if_true] at h
        cases check with
        | true => simp only [if_true] at h; exact ih call h
        | false =>
          simp only [Bool.false_eq_true, if_false, List.mem_cons] at h
          rcases h with h | h
          · rw [h]; rfl
          · exact ih call h
    | none =>
      simp only [hc] at h
      cases check with
      | true => simp only [if_true] at h; exact ih call h
      | false =>
        simp only [Bool.false_eq_true, if_false, List.mem_cons] at h
        rcases h with h | h
        · rw [h]; rfl
        · exact ih call h

theorem delLoop_calls_delete (ops : SyncOps K C D P) (check : Bool)
    (desBy : List (K × D)) :
    ∀ entries, ∀ call ∈ (delLoop ops check desBy entries).2,
      call.isDelete = true := by
  intro entries
  induction entries with
  | nil => intro call h; simp [delLoop] at h
  | cons kc rest ih =>
    obtain ⟨k, c⟩ := kc
    intro call h
    simp only [delLoop] at h
    cases hd : (dlookup desBy k).isSome
    · simp only [hd, Bool.false_eq_true, if_false, List.mem_append] at h
      rcases h with h | h
      · cases check with
        | true => simp at h
        | false =>
          simp only [Bool.false_eq_true, if_false, List.mem_singleton] at h
          rw [h]; rfl
      · exact ih call h
    · simp only [hd, if_true] at h
      exact ih call h

theorem cuLoop_noop (ops : SyncOps K C D P) (check : Bool) (curBy : List (K × C)) :
    ∀ entries,
      (∀ kd ∈ entries, cuEntryOk ops.needsUpdate curBy kd = true) →
      (cuLoop ops check curBy entries).1 = false
        ∧ (cuLoop ops check curBy entries).2.2 = [] := by
  intro entries
  induction entries with
  | nil => intro _; exact ⟨rfl, rfl⟩
  | cons kd rest ih =>
    obtain ⟨k, d⟩ := kd
    intro h
    have hhead := h (k, d) (by simp)
    have htail := ih (fun kd hkd => h kd (by simp [hkd]))
    simp only [cuLoop]
    cases hc : dlookup curBy k with
    | some c =>
      simp only [cuEntryOk, hc] at hhead
      have hu : ops.needsUpdate c d = false := by
        simpa using hhead
      simp [hu, htail.1, htail.2]
    | none =>
      simp only [cuEntryOk, hc] at hhead
      exact Bool.noConfusion hhead

theorem delLoop_noop (ops : SyncOps K C D P) (check : Bool) (desBy : List (K × D)) :
    ∀ entries, (∀ kc ∈ entries, (dlookup desBy kc.1).isSome = true) →
      delLoop ops check desBy entries = (false, []) := by
  intro entries
  induction entries with
  | nil => intro _; rfl
  | cons kc rest ih =>
    obtain ⟨k, c⟩ := kc
    intro h
    have hhead := h (k, c) (by simp)
    have htail := ih (fun kc hkc => h kc (by simp [hkc]))
    simp [delLoop, hhead, htail]

theorem delLoop_all_absent (ops : SyncOps K C D P) (desBy : List (K × D)) :
    ∀ entries, (∀ kc ∈ entries, dlookup desBy kc.1 = none) →
      delLoop ops false desBy entries =
        (!entries.isEmpty, entries.map (fun kc => SyncCall.delete (ops.idOf kc.2))) := by
  intro entries
  induction entries with
  | nil => intro _; rfl
  | cons kc rest ih =>
    obtain ⟨k, c⟩ := kc
    intro h
    have hhead : dlookup desBy k = none := h (k, c) (by simp)
    have htail := ih (fun kc hkc => h kc (by simp [hkc]))
    simp [delLoop, hhead, htail]

end SyncLemmas

section SyncLoopFacts

variable {K C D P : Type} [DecidableEq K]

theorem syncLoop_dry_run (ops : SyncOps K C D P) (cur : List C) (des : List D) :
    (syncLoop ops true cur des).2.2 = []
      ∧ (syncLoop ops true cur des).1 = (syncLoop ops false cur des).1 := by
  constructor
  · simp only [syncLoop]
    rw [cuLoop_check_calls, delLoop_check_calls]
    rfl
  · simp only [syncLoop]
    rw [cuLoop_changed_congr ops ops true false _ rfl,
      delLoop_changed_congr ops ops true false]

theorem syncLoop_calls_split (ops : SyncOps K C D P) (check : Bool)
    (cur : List C) (des : List D) :
    ∃ pre post, (syncLoop ops check cur des).2.2 = pre ++ post
      ∧ (∀ call ∈ pre, call.isDelete = false)
      ∧ (∀ call ∈ post, call.isDelete = true) := by
  refine ⟨_, _, rfl, ?_, ?_⟩
  · exact cuLoop_calls_no_delete ops check
      (pyDict (cur.map (fun c => (ops.keyOfCurrent c, c))))
      (pyDict (des.map (fun d => (ops.keyOfDesired d, d))))
  · exact delLoop_calls_delete ops check
      (pyDict (des.map (fun d => (ops.keyOfDesired d, d))))
      (pyDict (cur.map (fun c => (ops.keyOfCurrent c, c))))

theorem syncLoop_delete_all (ops : SyncOps K C D P) (cur : List C)
    (h : (cur.map ops.keyOfCurrent).Nodup) :
    syncLoop ops false cur ([] : List D)
      = (!cur.isEmpty, [], cur.map (fun c => SyncCall.delete (ops.idOf c))) := by
  have hkeys : ((cur.map (fun c => (ops.keyOfCurrent c, c))).map Prod.fst).Nodup := by
    rw [List.map_map]; exact h
  have hcur : pyDict (cur.map (fun c => (ops.keyOfCurrent c, c)))
      = cur.map (fun c => (ops.keyOfCurrent c, c)) := pyDict_eq_self _ hkeys
  have hdel := delLoop_all_absent ops
      (pyDict (([] : List D).map (fun d => (ops.keyOfDesired d, d))))
      (pyDict (cur.map (fun c => (ops.keyOfCurrent c, c)))) (fun _ _ => rfl)
  simp only [syncLoop]
  rw [hdel, hcur]
  have h1 : ((cur.map (fun c => (ops.keyOfCurrent c, c))).map
      (fun kc => (SyncCall.delete (ops.idOf kc.2) : SyncCall P)))
      = cur.map (fun c => (SyncCall.delete (ops.idOf c) : SyncCall P)) := by
    rw [List.map_map]
    rfl
  have h2 : (cur.map (fun c => (ops.keyOfCurrent c, c))).isEmpty = cur.isEmpty := by
    cases cur <;> rfl
  rw [h1, h2]
  rfl

theorem syncLoop_check_final (ops : SyncOps K C D P) (cur : List C) (des : List D) :
    (syncLoop ops true cur des).2.1
      = (pyDict (des.map (fun d => (ops.keyOfDesired d, d)))).filterMap
          (fun kd => dlookup (pyDict (cur.map (fun c => (ops.keyOfCurrent c, c)))) kd.1) :=
  cuLoop_check_final ops
    (pyDict (cur.map (fun c => (ops.keyOfCurrent c, c))))
    (pyDict (des.map (fun d => (ops.keyOfDesired d, d))))

theorem syncLoop_noop (ops : SyncOps K C D P) (check : Bool) (cur : List C) (des : List D)
    (h1 : ∀ kd ∈ pyDict (des.map (fun d => (ops.keyOfDesired d, d))),
      cuEntryOk ops.needsUpdate
        (pyDict (cur.map (fun c => (ops.keyOfCurrent c, c)))) kd = true)
    (h2 : ∀ kc ∈ pyDict (cur.map (fun c => (ops.keyOfCurrent c, c))),
      (dlookup (pyDict (des.map (fun d => (ops.keyOfDesired d, d)))) kc.1).isSome = true) :
    (syncLoop ops check cur des).1 = false ∧ (syncLoop ops check cur des).2.2 = [] := by
  have hcu := cuLoop_noop ops check
    (pyDict (cur.map (fun c => (ops.keyOfCurrent c, c))))
    (pyDict (des.map (fun d => (ops.keyOfDesired d, d)))) h1
  have hdel := delLoop_noop ops check
    (pyDict (des.map (fun d => (ops.keyOfDesired d, d))))
    (pyDict (cur.map (fun c => (ops.keyOfCurrent c, c)))) h2
  constructor
  · simp only [syncLoop]
    rw [hcu.1, hdel]
    rfl
  · simp only [syncLoop]
    rw [hcu.2, hdel]
    rfl

end SyncLoopFacts

/-! ## Claims -/

/-- Claim C2 (confirmed): dry-run purity.  Under check mode, the router
sync, the resource sync and the account-settings sync issue no mutating
collaborator call, and the changed flag each reports equals the changed
flag the same current/desired combination yields with check mode
disabled. -/
theorem c2_dry_run_purity :
    (∀ (srv : RouterServer) (cur : List CRouter) (des : List DRouter),
      (sync_routers srv true cur des).2.2 = []
        ∧ (sync_routers srv true cur des).1 = (sync_routers srv false cur des).1)
    ∧ (∀ (srv : ResourceServer) (cur : List CResource) (des : List DResource),
      (sync_resources srv true cur des).2.2 = []
        ∧ (sync_resources srv true cur des).1 = (sync_resources srv false cur des).1)
    ∧ (∀ (V : Type) [DecidableEq V] (cur des : List (String × V)),
      (account_settings_sync true cur des).2 = []
        ∧ (account_settings_sync true cur des).1
          = (account_settings_sync false cur des).1) := by
  refine ⟨fun srv cur des => syncLoop_dry_run (routerOps srv) cur des,
    fun srv cur des => syncLoop_dry_run (resourceOps srv) cur des,
    fun V instV cur des => ?_⟩
  cases hE : des.isEmpty <;> cases hU : settings_need_update cur des <;>
    simp [account_settings_sync, hE, hU]

/-- Claim C8 (confirmed): the router NaturalKey is invariant under
reordering of `peer_groups`, and two router records with the same peer
whose `peer_groups` are respectively `None`/absent and the empty list
derive the identical NaturalKey. -/
theorem c8_router_key_equivalence :
    (∀ (pf : PyField String) (l l' : List String), l.Perm l' →
      get_router_key ⟨pf, PyField.val l⟩ = get_router_key ⟨pf, PyField.val l'⟩)
    ∧ (∀ pf : PyField String,
      get_router_key ⟨pf, PyField.pynull⟩ = get_router_key ⟨pf, PyField.val []⟩
        ∧ get_router_key ⟨pf, PyField.absent⟩ = get_router_key ⟨pf, PyField.val []⟩) := by
  constructor
  · intro pf l l' h
    simp only [get_router_key, pyListOr]
    rw [sortStr_perm_invariant h]
  · intro pf
    exact ⟨rfl, rfl⟩

/-- Witness for C8: concrete reordered peer groups produce the same key. -/
theorem c8_router_key_equivalence_witness :
    (["gB", "gA"] : List String).Perm ["gA", "gB"]
      ∧ get_router_key ⟨PyField.val "peer-1", PyField.val ["gB", "gA"]⟩
        = get_router_key ⟨PyField.val "peer-1", PyField.val ["gA", "gB"]⟩ :=
  ⟨by decide, c8_router_key_equivalence.1 _ _ _ (by decide)⟩

/-- Counterexample for C9: a connection failure (a `URLError`, no response
received) is translated to a `NetBirdAPIError` whose `status_code` is the
sentinel `-1`, not an error carrying no status code as the claim states. -/
theorem c9_counterexample :
    (translateFailure (TransportFailure.urlError "Connection refused")).status_code
        = some (-1)
      ∧ ¬ (translateFailure
          (TransportFailure.urlError "Connection refused")).status_code = none :=
  ⟨rfl, fun h => Option.noConfusion h⟩

/-- Claim C9 (amended): every transport failure maps to exactly one domain
error (`translateFailure` is total); a non-success HTTP response yields an
error carrying that response's status code, with the structured error
body attached when the body parses as a JSON dict; a request that never
received a response (URLError or SSL failure) yields an error carrying
the sentinel status code `-1` and no response body. -/
theorem c9_error_translation :
    (∀ (code : Int) (reason : String) (body : HTTPBody),
      (translateFailure (TransportFailure.httpError code reason body)).status_code
          = some code
        ∧ (∀ d, body = HTTPBody.parsesDict d →
          (translateFailure (TransportFailure.httpError code reason body)).response
            = some (RespData.jdict d)))
    ∧ (∀ reason : String,
      (translateFailure (TransportFailure.urlError reason)).status_code = some (-1)
        ∧ (translateFailure (TransportFailure.urlError reason)).response = none)
    ∧ (∀ msg : String,
      (translateFailure (TransportFailure.sslError msg)).status_code = some (-1)
        ∧ (translateFailure (TransportFailure.sslError msg)).response = none) := by
  refine ⟨fun code reason body => ⟨?_, ?_⟩,
    fun reason => ⟨rfl, rfl⟩, fun msg => ⟨rfl, rfl⟩⟩
  · cases body <;> rfl
  · intro d h
    subst h
    rfl

/-- Witness for C9: the structured body of a concrete 422 response is
carried on the translated error. -/
theorem c9_error_translation_witness :
    (translateFailure (TransportFailure.httpError 422 "Unprocessable"
        (HTTPBody.parsesDict [("message", "boom")]))).response
      = some (RespData.jdict [("message", "boom")]) :=
  (c9_error_translation.1 422 "Unprocessable"
    (HTTPBody.parsesDict [("message", "boom")])).2 [("message", "boom")] rfl

/-- Counterexample for C10: the token module's absent flow addressed by
`token_id` issues the delete unconditionally.  Here the remote token list
holds only a token with id `tok-1`, no token matches the requested id
`tok-missing`, yet the run issues `delete_token` for it and reports
changed=true — no existence lookup ever consults the remote state —
contradicting the claim that for every entity kind a non-matching id
reports changed=false and issues no delete call. -/
theorem c10_counterexample :
    token_absent false "user-1" (some "tok-missing") none [⟨"tok-1", some "ci"⟩]
      = (true, [TokenCall.deleteToken "user-1" "tok-missing"],
          some "Token deleted successfully")
    ∧ (token_absent false "user-1" (some "tok-missing") none
        [⟨"tok-1", some "ci"⟩]).2.1 ≠ [] :=
  ⟨rfl, fun h => List.noConfusion h⟩

/-- Claim C10 (amended): deleting an absent entity is a no-op for the
kinds that resolve existence first — for the network and nameserver-group
modules a 404 from the id lookup is absorbed (any other lookup failure
propagates) and an id or name miss reports changed=false with no delete
call — and for tokens addressed by name; but the token module addressed
by a `token_id` issues the delete unconditionally, with no existence
lookup, and reports changed=true even when no token matches the id. -/
theorem c10_absent_delete_noop :
    (∀ (check : Bool) (e : NetBirdAPIError), e.status_code = some 404 →
      run_network_absent_by_id check (NetGetOutcome.apiError e)
        = Except.ok (false, [], none))
    ∧ (∀ (check : Bool) (e : NetBirdAPIError), ¬ e.status_code = some 404 →
      run_network_absent_by_id check (NetGetOutcome.apiError e) = Except.error e)
    ∧ (∀ (check : Bool) (networks : List NetRec) (nm : String),
      (∀ n ∈ networks, ¬ n.name = some nm) →
      network_absent check (find_network_by_name networks nm) = (false, [], none))
    ∧ (∀ (check : Bool) (e : NetBirdAPIError), e.status_code = some 404 →
      run_nsgroup_absent_by_id check (NsGroupGetOutcome.apiError e)
        = Except.ok (false, [], none))
    ∧ (∀ (check : Bool) (e : NetBirdAPIError), ¬ e.status_code = some 404 →
      run_nsgroup_absent_by_id check (NsGroupGetOutcome.apiError e) = Except.error e)
    ∧ (∀ (check : Bool) (groups : List NsGroupRec) (nm : String),
      (∀ n ∈ groups, ¬ n.name = some nm) →
      nsgroup_absent check (find_nsgroup_by_name groups nm) = (false, [], none))
    ∧ (∀ (user_id tid : String) (name : Option String) (tokens : List TokenRec),
      ¬ tid = "" →
      token_absent false user_id (some tid) name tokens
        = (true, [TokenCall.deleteToken user_id tid], some "Token deleted successfully"))
    ∧ (∀ (check : Bool) (user_id nm : String) (tokens : List TokenRec),
      (∀ t ∈ tokens, ¬ t.name = some nm) →
      token_absent check user_id none (some nm) tokens = (false, [], none)) := by
  refine ⟨fun check e h => ?_, fun check e h => ?_, fun check networks nm h => ?_,
    fun check e h => ?_, fun check e h => ?_, fun check groups nm h => ?_,
    fun user_id tid name tokens h => ?_, fun check user_id nm tokens h => ?_⟩
  · simp [run_network_absent_by_id, resolve_network_by_id, h, network_absent]
  · simp [run_network_absent_by_id, resolve_network_by_id, h]
  · have hfind : find_network_by_name networks nm = none := by
      apply List.find?_eq_none.mpr
      intro n hn
      simpa using h n hn
    rw [hfind]
    rfl
  · simp [run_nsgroup_absent_by_id, resolve_nsgroup_by_id, h, nsgroup_absent]
  · simp [run_nsgroup_absent_by_id, resolve_nsgroup_by_id, h]
  · have hfind : find_nsgroup_by_name groups nm = none := by
      apply List.find?_eq_none.mpr
      intro n hn
      simpa using h n hn
    rw [hfind]
    rfl
  · simp [token_absent, truthyStr, h]
  · have hfind : find_token_by_name tokens nm = none := by
      apply List.find?_eq_none.mpr
      intro t ht
      simpa using h t ht
    by_cases hnm : nm = ""
    · simp [token_absent, truthyStr, hnm]
    · simp [token_absent, truthyStr, hnm, hfind]

/-- Witness for C10: a concrete 404 is absorbed, a concrete connection
failure propagates, a name miss reports no change, a token delete by id
is issued against remote state holding no such token, and a token name
miss reports no change. -/
theorem c10_absent_delete_noop_witness :
    run_network_absent_by_id false
        (NetGetOutcome.apiError ⟨"API request failed: not found", some 404, none⟩)
      = Except.ok (false, [], none)
    ∧ run_network_absent_by_id false
        (NetGetOutcome.apiError ⟨"Failed to connect to API: refused", some (-1), none⟩)
      = Except.error ⟨"Failed to connect to API: refused", some (-1), none⟩
    ∧ network_absent false
        (find_network_by_name [⟨"net-1", some "office"⟩] "warehouse")
      = (false, [], none)
    ∧ token_absent false "user-7" (some "tok-9") none []
      = (true, [TokenCall.deleteToken "user-7" "tok-9"],
          some "Token deleted successfully")
    ∧ token_absent false "user-7" none (some "deploy") [⟨"tok-1", some "ci"⟩]
      = (false, [], none) :=
  ⟨c10_absent_delete_noop.1 false _ rfl,
    c10_absent_delete_noop.2.1 false _ (by decide),
    c10_absent_delete_noop.2.2.1 false _ _ (by decide),
    c10_absent_delete_noop.2.2.2.2.2.2.1 "user-7" "tok-9" none [] (by decide),
    c10_absent_delete_noop.2.2.2.2.2.2.2 false "user-7" "deploy" _ (by decide)⟩

/-- Counterexample for C3: the desired list holds two resources with the
same address `10.0.0.0/8` (names `n1` and `n2`), yet reconciliation
raises no validation error and makes a collaborator call: the desired
index silently keeps the second record and an update call built from it
is issued against the matching current resource. -/
theorem c3_counterexample :
    (sync_resources fixedResourceServer false
        [⟨"x1", PyField.val "10.0.0.0/8", PyField.val "n1", PyField.val "",
          PyField.val true, PyField.val []⟩]
        [⟨"10.0.0.0/8", "n1", "", true, []⟩, ⟨"10.0.0.0/8", "n2", "", true, []⟩]).2.2
      = [SyncCall.update "x1" ⟨"10.0.0.0/8", "n2", "", true, []⟩] := by
  decide

/-- Claim C3 (amended): duplicate desired NaturalKeys are not rejected
and no validation error is raised; the desired index keeps only the last
desired record bearing each key (earlier duplicates are silently
discarded) and reconciliation proceeds with that record. -/
theorem c3_duplicate_keys_last_wins :
    (∀ (des : List DResource) (k : Option String),
      dlookup (desiredResourceIndex des) k
        = des.reverse.find? (fun r => decide ((some r.address : Option String) = k)))
    ∧ (∀ (des : List DRouter) (k : RKey),
      dlookup (desiredRouterIndex des) k
        = des.reverse.find? (fun d => decide (desiredRouterKey d = k))) :=
  ⟨fun des k => dlookup_pyDict_map des (fun r => (some r.address : Option String)) k,
    fun des k => dlookup_pyDict_map des desiredRouterKey k⟩

/-- Counterexample for C4: with one current router needing an update and
one new desired router, the issued call sequence is update-then-create —
an update is issued before a create, contradicting the claimed
all-creates-first order. -/
theorem c4_counterexample :
    (sync_routers fixedRouterServer false
        [⟨"rA", PyField.val "P1", PyField.absent, PyField.val 100, PyField.val false⟩]
        [⟨some "P1", none, 200, false⟩, ⟨some "P2", none, 100, false⟩]).2.2
      = [SyncCall.update "rA" ⟨some "P1", none, 200, false⟩,
          SyncCall.create ⟨some "P2", none, 100, false⟩] := by
  decide

/-- Claim C4 (amended): in every router or resource sync the mutating
call sequence splits into a prefix of creates and updates (interleaved in
desired-index order) followed by all deletes; no delete is ever issued
before a create or update. -/
theorem c4_creates_updates_before_deletes :
    (∀ (srv : RouterServer) (check : Bool) (cur : List CRouter) (des : List DRouter),
      ∃ pre post, (sync_routers srv check cur des).2.2 = pre ++ post
        ∧ (∀ call ∈ pre, call.isDelete = false)
        ∧ (∀ call ∈ post, call.isDelete = true))
    ∧ (∀ (srv : ResourceServer) (check : Bool) (cur : List CResource)
        (des : List DResource),
      ∃ pre post, (sync_resources srv check cur des).2.2 = pre ++ post
        ∧ (∀ call ∈ pre, call.isDelete = false)
        ∧ (∀ call ∈ post, call.isDelete = true)) :=
  ⟨fun srv check cur des => syncLoop_calls_split (routerOps srv) check cur des,
    fun srv check cur des => syncLoop_calls_split (resourceOps srv) check cur des⟩

/-- Claim C5 (confirmed): omission semantics.  An omitted routers (or
resources) parameter skips the sync entirely — no mutating call, reported
unchanged; the explicit empty list deletes every current item of the
collection (current NaturalKeys are unique within a scope). -/
theorem c5_omission_semantics :
    (∀ (srv : RouterServer) (check : Bool) (cur : List CRouter),
      routersPhase srv check cur none = (false, []))
    ∧ (∀ (srv : RouterServer) (cur : List CRouter),
      (cur.map currentRouterKey).Nodup →
      routersPhase srv false cur (some [])
        = (!cur.isEmpty, cur.map (fun r => SyncCall.delete r.id)))
    ∧ (∀ (srv : ResourceServer) (check : Bool) (cur : List CResource),
      resourcesPhase srv check cur none = (false, []))
    ∧ (∀ (srv : ResourceServer) (cur : List CResource),
      (cur.map (fun c => pyGet c.address)).Nodup →
      resourcesPhase srv false cur (some [])
        = (!cur.isEmpty, cur.map (fun r => SyncCall.delete r.id))) := by
  refine ⟨fun srv check cur => rfl, fun srv cur h => ?_,
    fun srv check cur => rfl, fun srv cur h => ?_⟩
  · have hs := syncLoop_delete_all (routerOps srv) cur h
    simp only [routersPhase, sync_routers]
    rw [hs]
    rfl
  · have hs := syncLoop_delete_all (resourceOps srv) cur h
    simp only [resourcesPhase, sync_resources]
    rw [hs]
    rfl

/-- Witness for C5: a one-router collection with the parameter supplied
as the empty list yields exactly one delete call. -/
theorem c5_omission_semantics_witness :
    (([⟨"r1", PyField.val "P1", PyField.absent, PyField.val 100, PyField.val false⟩]
        : List CRouter).map currentRouterKey).Nodup
    ∧ routersPhase fixedRouterServer false
        [⟨"r1", PyField.val "P1", PyField.absent, PyField.val 100, PyField.val false⟩]
        (some [])
      = (true, [SyncCall.delete "r1"]) :=
  ⟨by decide,
    (c5_omission_semantics.2.1 fixedRouterServer _ (by decide)).trans (by decide)⟩

/-- Counterexample for C6: in check mode, with a current router `r1`
planned for an update (metric 100 → 200) and a second desired router
planned for creation, the projected collection is `[r1]` unchanged — the
desired payload is not merged (metric stays 100) and no placeholder for
the to-be-created router appears; the claimed merge/placeholder
projection does not happen. -/
theorem c6_counterexample :
    sync_routers fixedRouterServer true
        [⟨"r1", PyField.val "P1", PyField.absent, PyField.val 100, PyField.val false⟩]
        [⟨some "P1", none, 200, false⟩, ⟨some "P2", none, 9999, false⟩]
      = (true,
          [⟨"r1", PyField.val "P1", PyField.absent, PyField.val 100, PyField.val false⟩],
          []) := by
  decide

/-- Claim C6 (amended): under check mode the returned collection consists
exactly of the unmodified current records whose NaturalKey appears in the
desired index (items planned for update or unchanged); items planned for
creation are omitted, and no desired payload is merged. -/
theorem c6_dry_run_projection :
    (∀ (srv : RouterServer) (cur : List CRouter) (des : List DRouter),
      (sync_routers srv true cur des).2.1
        = (desiredRouterIndex des).filterMap
            (fun kd => dlookup (currentRouterIndex cur) kd.1))
    ∧ (∀ (srv : ResourceServer) (cur : List CResource) (des : List DResource),
      (sync_resources srv true cur des).2.1
        = (desiredResourceIndex des).filterMap
            (fun kd => dlookup (currentResourceIndex cur) kd.1)) :=
  ⟨fun srv cur des => syncLoop_check_final (routerOps srv) cur des,
    fun srv cur des => syncLoop_check_final (resourceOps srv) cur des⟩

/-- Claim C7 (confirmed): settings patch semantics.  The payload sent to
the collaborator is the current record with every supplied field
overwritten by its supplied value and unsupplied fields kept; changed is
reported iff some supplied field's value differs from the current
record's value, a field absent from the current record counting as
differing (its lookup yields `None`). -/
theorem c7_settings_patch (V : Type) [DecidableEq V] (cur des : List (String × V)) :
    (∀ k, dlookup (pyMerge cur des) k = (revLookup des k).or (dlookup cur k))
    ∧ (settings_need_update cur des = true ↔ ∃ p ∈ des, ¬ dlookup cur p.1 = some p.2)
    ∧ ((account_settings_sync false cur des).1
        = (!des.isEmpty && settings_need_update cur des))
    ∧ ((account_settings_sync false cur des).2
        = if !des.isEmpty && settings_need_update cur des
          then [AccountCall.updateAccount (pyMerge cur des)] else []) := by
  refine ⟨fun k => dlookup_pyMerge cur des k, ?_, ?_, ?_⟩
  · simp [settings_need_update, List.any_eq_true]
  · cases hE : des.isEmpty <;> cases hU : settings_need_update cur des <;>
      simp [account_settings_sync, hE, hU]
  · cases hE : des.isEmpty <;> cases hU : settings_need_update cur des <;>
      simp [account_settings_sync, hE, hU]

/-- Counterexample for C1: a second policy reconciliation against the
unchanged remote state — the current policy field-equals the desired
parameters, rules included — still reports changed=true and issues a
mutating update call, because `policy_needs_update` returns true whenever
rules are supplied.  The claim's idempotence fails for policies whose
rules are supplied. -/
theorem c1_counterexample :
    policy_present false
        (some ⟨"p1", some "office-policy", some "", some true, some ["rule-blob"]⟩)
        ⟨some "office-policy", some "", some true, some ["rule-blob"]⟩
      = Except.ok (true,
          [PolicyCall.updatePolicy "p1" (some "office-policy") (some true) (some "")
            (some ["rule-blob"])]) := by
  rfl

/-- Claim C1 (amended): reconciliation is idempotent for field-compared
kinds: once the remote router collection realizes the desired spec
(`routersConverged`), a second non-check run reports changed=false and
issues no mutating call.  It is not idempotent for the nested always-
update structures: a policy whose rules are supplied reports changed=true
and issues an update call on every run against an existing policy (and
`nsgroup_needs_update` / `posture_check_needs_update` return true
whenever nameservers / checks are supplied); with rules not supplied and
all supplied fields equal, the second policy run is a no-op. -/
theorem c1_idempotence_amended :
    (∀ (srv : RouterServer) (cur : List CRouter) (des : List DRouter),
      routersConverged cur des = true →
      (sync_routers srv false cur des).1 = false
        ∧ (sync_routers srv false cur des).2.2 = [])
    ∧ (∀ (cur : PolicyRec) (p : PolicyParams), p.rules.isSome = true →
      policy_present false (some cur) p
        = Except.ok (true,
            [PolicyCall.updatePolicy cur.id p.name p.enabled p.description p.rules]))
    ∧ (∀ (cur : PolicyRec) (p : PolicyParams),
      p.rules = none →
      (p.name.isSome = true → cur.name = p.name) →
      (p.description.isSome = true → cur.description = p.description) →
      (p.enabled.isSome = true → cur.enabled = p.enabled) →
      policy_present false (some cur) p = Except.ok (false, []))
    ∧ (∀ (cur : NsGroupRec) (p : NsGroupParams), p.nameservers.isSome = true →
      nsgroup_needs_update cur p = true)
    ∧ (∀ (cur : PostureCheckRec) (p : PostureCheckParams), p.checks.isSome = true →
      posture_check_needs_update cur p = true) := by
  refine ⟨fun srv cur des h => ?_, fun cur p h => ?_, fun cur p hr hname hdesc hen => ?_,
    fun cur p h => ?_, fun cur p h => ?_⟩
  · rw [routersConverged, Bool.and_eq_true] at h
    have h1 := List.all_eq_true.mp h.1
    have h2 := List.all_eq_true.mp h.2
    exact syncLoop_noop (routerOps srv) false cur des h1 h2
  · simp [policy_present, policy_needs_update, h]
  · have e1 : (p.name.isSome && decide (¬ cur.name = p.name)) = false := by
      cases hpn : p.name with
      | none => rfl
      | some v =>
        have hcur : cur.name = some v := (hname (by simp [hpn])).trans hpn
        simp [hpn, hcur]
    have e2 : (p.description.isSome && decide (¬ cur.description = p.description))
        = false := by
      cases hpn : p.description with
      | none => rfl
      | some v =>
        have hcur : cur.description = some v := (hdesc (by simp [hpn])).trans hpn
        simp [hpn, hcur]
    have e3 : (p.enabled.isSome && decide (¬ cur.enabled = p.enabled)) = false := by
      cases hpn : p.enabled with
      | none => rfl
      | some v =>
        have hcur : cur.enabled = some v := (hen (by simp [hpn])).trans hpn
        simp [hpn, hcur]
    have hb : policy_needs_update cur p = false := by
      simp only [policy_needs_update, e1, e2, e3, hr]
      rfl
    simp [policy_present, hb]
  · simp [nsgroup_needs_update, h]
  · simp [posture_check_needs_update, h]

/-- Witness for C1: a converged one-router state reports no change and no
calls on the second run; a concrete policy with rules supplied always
updates; concrete nsgroup and posture-check parameters with nested
structures supplied always report an update; a concrete policy with
matching fields and no rules is a no-op. -/
theorem c1_idempotence_amended_witness :
    routersConverged
        [⟨"r1", PyField.val "P1", PyField.absent, PyField.val 9999, PyField.val false⟩]
        [⟨some "P1", none, 9999, false⟩] = true
    ∧ (sync_routers fixedRouterServer false
        [⟨"r1", PyField.val "P1", PyField.absent, PyField.val 9999, PyField.val false⟩]
        [⟨some "P1", none, 9999, false⟩]).1 = false
    ∧ (sync_routers fixedRouterServer false
        [⟨"r1", PyField.val "P1", PyField.absent, PyField.val 9999, PyField.val false⟩]
        [⟨some "P1", none, 9999, false⟩]).2.2 = []
    ∧ policy_present false
        (some ⟨"p9", some "web", some "", some true, some ["rule-a"]⟩)
        ⟨some "web", some "", some true, some ["rule-a"]⟩
      = Except.ok (true,
          [PolicyCall.updatePolicy "p9" (some "web") (some true) (some "")
            (some ["rule-a"])])
    ∧ policy_present false (some ⟨"p8", some "ssh", some "", some true, none⟩)
        ⟨some "ssh", some "", some true, none⟩
      = Except.ok (false, [])
    ∧ nsgroup_needs_update
        ⟨"g1", some "dns", some "", some true, some false, some true, some [], some []⟩
        ⟨some "dns", some "", some ["ns-dict"], some [], some [], some true, some false,
          some true⟩ = true
    ∧ posture_check_needs_update ⟨"pc1", some "os", some ""⟩
        ⟨some "os", some "", some [("os_version_check", "cfg")]⟩ = true := by
  refine ⟨by decide, ?_, ?_, ?_, ?_, ?_, ?_⟩
  · exact (c1_idempotence_amended.1 fixedRouterServer _ _ (by decide)).1
  · exact (c1_idempotence_amended.1 fixedRouterServer _ _ (by decide)).2
  · exact c1_idempotence_amended.2.1 _ _ rfl
  · exact c1_idempotence_amended.2.2.1 _ _ rfl (fun _ => rfl) (fun _ => rfl) (fun _ => rfl)
  · exact c1_idempotence_amended.2.2.2.1 _ _ rfl
  · exact c1_idempotence_amended.2.2.2.2 _ _ rfl

end NetBird
